import Mathlib

/-!
Verification of the barahlo chat-polling script (`main.py`).

The development is a shallow embedding of the script's pure logic:

* the Duplicate Store (`load_forwarded_messages`, `save_forwarded_messages`,
  `add_forwarded_message`) is modelled over an explicit file-state type;
* the Keyword Matcher is the filter loop at `main.py:139-143`;
* the per-cycle message sweep of `get_chat_messages_by_time`
  (`main.py:113-188`) is a fold over the delivered message list, with the
  network side effects (header send, forward) replaced by success oracles
  and an explicit event log;
* the relative-age formatting (`main.py:158-174`) is a pure function of the
  non-negative time difference in seconds.

Python sets of message ids are modelled as `Finset Int`; `str.lower()` is
modelled by per-character lowering (`strLower`), and `needle in haystack`
on strings as infix containment on character lists (`strContains`).
-/

namespace Barahlo

/-- A JSON value as far as the duplicate-store file is concerned: the file is
only ever written as an array of integer message ids, but an externally
edited file may decode to some other JSON value; a bare number is the
representative non-iterable case (Python `set(42)` raises `TypeError`). -/
inductive Json where
  | arr (elems : List Int)
  | num (n : Int)
  deriving Repr, DecidableEq

/-- State of the persisted duplicate-store file: absent, present but not
decodable as JSON (`json.JSONDecodeError`), or holding a decoded value. -/
inductive FileState where
  | absent
  | invalidJson
  | content (j : Json)
  deriving Repr, DecidableEq

/-- `load_forwarded_messages` (`main.py:43-51`): returns an empty set when the
file is absent; around `set(json.load(f))` it catches `json.JSONDecodeError`
and `FileNotFoundError`, but a decoded non-iterable value makes `set(...)`
raise `TypeError`, which is not in the `except` tuple, so it propagates. -/
def load_forwarded_messages : FileState → Except String (Finset Int)
  | FileState.absent => Except.ok ∅
  | FileState.invalidJson => Except.ok ∅
  | FileState.content (Json.arr l) => Except.ok l.toFinset
  | FileState.content (Json.num _) =>
      Except.error "TypeError: int object is not iterable"

/-- `save_forwarded_messages` (`main.py:54-57`): overwrites the file with
`json.dump(list(forwarded_ids))`, a JSON array enumerating the set.  Python
enumerates a set in unspecified order; the model picks the sorted
enumeration as its canonical order. -/
def save_forwarded_messages (forwarded_ids : Finset Int) : FileState :=
  FileState.content (Json.arr (forwarded_ids.sort (· ≤ ·)))

/-- `add_forwarded_message` (`main.py:60-63`): inserts the id into the
in-memory set and immediately saves; returns the new in-memory set together
with the new file state. -/
def add_forwarded_message (forwarded_ids : Finset Int) (message_id : Int) :
    Finset Int × FileState :=
  let ids := insert message_id forwarded_ids
  (ids, save_forwarded_messages ids)

/-- Python's `str.lower()`, modelled as per-character lowercase folding. -/
def strLower (s : String) : String :=
  String.mk (s.data.map Char.toLower)

/-- Python's `needle in haystack` on strings: substring containment,
modelled as infix containment on the character lists. -/
def strContains (haystack needle : String) : Bool :=
  decide (needle.data <:+: haystack.data)

/-- The keyword-matching loop (`main.py:139-143`): lowercase the message
text and keep every keyword whose lowercase form occurs in it. -/
def matching_keywords (keywords : List String) (text : String) : List String :=
  let message_text_lower := strLower text
  keywords.filter (fun keyword => strContains message_text_lower (strLower keyword))

/-- The relative-age formatting (`main.py:158-174`) for a non-negative time
difference of `d` seconds; `timedelta.days` is `d / 86400` and
`timedelta.seconds` is `d % 86400` for non-negative differences. -/
def time_ago (d : Nat) : String :=
  let days := d / 86400
  let secs := d % 86400
  if days > 0 then
    toString days ++ " day" ++ (if days > 1 then "s" else "") ++ " ago"
  else if secs ≥ 3600 then
    let hours := secs / 3600
    toString hours ++ " hour" ++ (if hours > 1 then "s" else "") ++ " ago"
  else if secs ≥ 60 then
    let minutes := secs / 60
    toString minutes ++ " minute" ++ (if minutes > 1 then "s" else "") ++ " ago"
  else
    "just now"

/-- A fetched message: identifier, timestamp (seconds), and `message.text`,
which is `none` for non-text messages (Python `None`). -/
structure Message where
  id : Int
  date : Int
  text : Option String
  deriving Repr, DecidableEq

/-- Python truthiness of `message.text` (`main.py:118`): `None` and the
empty string are falsy, any other string is truthy. -/
def truthyText : Option String → Bool
  | none => false
  | some t => !(t == "")

/-- Observable network side effects of one cycle, in order of occurrence:
a header notice sent to the target (`main.py:178`) and a message forwarded
to the target (`main.py:181`). -/
inductive Event where
  | headerSent (message_id : Int)
  | forwarded (message_id : Int)
  deriving Repr, DecidableEq

/-- The mutable state of one poll cycle of `get_chat_messages_by_time`:
the `messages` and `matching_messages` accumulators (by message id), the
`skipped_messages` counter, the in-memory `forwarded_message_ids` set, the
persisted file, and the log of network events so far. -/
structure CycleState where
  messages : List Int
  matching : List Int
  skipped : Nat
  store : Finset Int
  file : FileState
  events : List Event
  deriving DecidableEq

/-- The loop body of `get_chat_messages_by_time` for one message already
known to be newer than the cutoff (`main.py:118-188`).  `headerOk` and
`forwardOk` are oracles telling whether `client.send_message` and
`client.forward_messages` succeed for a given message id; the
`try/except` at `main.py:157-188` catches a failure of either, so a failed
attempt adds no id to the store. -/
def step (keywords : List String) (headerOk forwardOk : Int → Bool)
    (m : Message) (s : CycleState) : CycleState :=
  if truthyText m.text then
    let s := { s with messages := s.messages ++ [m.id] }
    let mk := matching_keywords keywords (m.text.getD "")
    if mk = [] then s
    else if m.id ∈ s.store then
      { s with skipped := s.skipped + 1 }
    else
      let s := { s with matching := s.matching ++ [m.id] }
      if headerOk m.id then
        let s := { s with events := s.events ++ [Event.headerSent m.id] }
        if forwardOk m.id then
          let s := { s with events := s.events ++ [Event.forwarded m.id] }
          let added := add_forwarded_message s.store m.id
          { s with store := added.1, file := added.2 }
        else s
      else s
  else s

/-- The message iteration of `get_chat_messages_by_time`
(`main.py:113-188`): messages arrive newest first; the loop breaks at the
first message strictly older than the cutoff and otherwise runs `step`. -/
def get_chat_messages_by_time (keywords : List String)
    (cutoff : Int) (headerOk forwardOk : Int → Bool) :
    List Message → CycleState → CycleState
  | [], s => s
  | m :: rest, s =>
    if m.date < cutoff then s
    else
      get_chat_messages_by_time keywords cutoff headerOk forwardOk rest
        (step keywords headerOk forwardOk m s)

/-- The cycle's starting state (`main.py:79-111`): empty accumulators, the
store loaded from the file (the cycle only starts when loading succeeded),
and no events yet. -/
def initCycleState (ids : Finset Int) (fs : FileState) : CycleState :=
  { messages := [], matching := [], skipped := 0,
    store := ids, file := fs, events := [] }

/-- `True` exactly when the file holds a decoded non-iterable JSON value,
the one shape on which `set(json.load(f))` raises `TypeError`. -/
def isNumContent : FileState → Bool
  | FileState.content (Json.num _) => true
  | _ => false

end Barahlo

namespace Barahlo

example : matching_keywords ["laptop", "bike"] "Selling a used Laptop" = ["laptop"] := by decide
example : matching_keywords ["", "bike"] "hello" = [""] := by decide
example : time_ago 30 = "just now" := by decide
example : time_ago 86400 = "1 day ago" := by decide
example : time_ago 7200 = "2 hours ago" := by decide

/-- C2: membership in the matcher's result is exactly membership in the
keyword list together with lowercase substring containment in the
lowercased text — pure substring matching, no tokenization. -/
theorem matching_keywords_spec (K : List String) (T k : String) :
    k ∈ matching_keywords K T ↔
      k ∈ K ∧ (strLower k).data <:+: (strLower T).data := by
  simp [matching_keywords, strContains, List.mem_filter]

/-- C4: saving a set of message ids and loading it back reproduces exactly
that set, for every set including the empty one. -/
theorem save_load_roundtrip (S : Finset Int) :
    load_forwarded_messages (save_forwarded_messages S) = Except.ok S := by
  simp [load_forwarded_messages, save_forwarded_messages, Finset.sort_toFinset]

/-- C5: adding the same message id twice leaves both the in-memory set and
the persisted file state equal to the result of a single addition. -/
theorem add_forwarded_message_idem (ids : Finset Int) (mid : Int) :
    add_forwarded_message (add_forwarded_message ids mid).1 mid =
      add_forwarded_message ids mid := by
  simp [add_forwarded_message]

/-- C7: when the configured keyword list contains the empty string, the
matcher's result is non-empty for every message text. -/
theorem empty_keyword_matches_all (K : List String) (h : "" ∈ K)
    (T : String) : matching_keywords K T ≠ [] := by
  intro hnil
  have hmem : "" ∈ matching_keywords K T := by
    simp only [matching_keywords, List.mem_filter]
    exact ⟨h, decide_eq_true ⟨[], (strLower T).data, rfl⟩⟩
  rw [hnil] at hmem
  exact absurd hmem (List.not_mem_nil _)

/-- C7 witness. -/
theorem empty_keyword_matches_all_witness :
    "" ∈ ["", "bike"] ∧ matching_keywords ["", "bike"] "hello" ≠ [] :=
  ⟨by decide, empty_keyword_matches_all ["", "bike"] (by decide) "hello"⟩

/-- C9: the relative-age string is "N days ago" when the difference is at
least one day, otherwise "N hours ago" when at least one hour, otherwise
"N minutes ago" when at least one minute, otherwise "just now", with the
unit singular exactly when N = 1. -/
theorem time_ago_spec (d : Nat) :
    time_ago d =
      if 86400 ≤ d then
        toString (d / 86400) ++ " day" ++
          (if d / 86400 = 1 then "" else "s") ++ " ago"
      else if 3600 ≤ d then
        toString (d / 3600) ++ " hour" ++
          (if d / 3600 = 1 then "" else "s") ++ " ago"
      else if 60 ≤ d then
        toString (d / 60) ++ " minute" ++
          (if d / 60 = 1 then "" else "s") ++ " ago"
      else "just now" := by
  unfold time_ago
  by_cases hd : 86400 ≤ d
  · have hdays : 0 < d / 86400 := Nat.div_pos hd (by norm_num)
    rw [if_pos hdays, if_pos hd]
    have h1 : (if d / 86400 > 1 then "s" else "") =
        (if d / 86400 = 1 then "" else "s") := by
      rcases Nat.lt_or_ge (d / 86400) 2 with h | h
      · have : d / 86400 = 1 := by omega
        simp [this]
      · rw [if_pos (by omega), if_neg (by omega)]
    rw [h1]
  · have hlt : d < 86400 := by omega
    have hdays : ¬ 0 < d / 86400 := by
      simp [Nat.div_eq_of_lt hlt]
    have hmod : d % 86400 = d := Nat.mod_eq_of_lt hlt
    rw [if_neg hdays, if_neg hd, hmod]
    by_cases h3 : 3600 ≤ d
    · rw [if_pos h3, if_pos h3]
      have hhours : 1 ≤ d / 3600 := (Nat.one_le_div_iff (by norm_num)).mpr h3
      have h1 : (if d / 3600 > 1 then "s" else "") =
          (if d / 3600 = 1 then "" else "s") := by
        rcases Nat.lt_or_ge (d / 3600) 2 with h | h
        · have : d / 3600 = 1 := by omega
          simp [this]
        · rw [if_pos (by omega), if_neg (by omega)]
      simp only [h1]
    · rw [if_neg h3, if_neg h3]
      by_cases h6 : 60 ≤ d
      · rw [if_pos h6, if_pos h6]
        have hmin : 1 ≤ d / 60 := (Nat.one_le_div_iff (by norm_num)).mpr h6
        have h1 : (if d / 60 > 1 then "s" else "") =
            (if d / 60 = 1 then "" else "s") := by
          rcases Nat.lt_or_ge (d / 60) 2 with h | h
          · have : d / 60 = 1 := by omega
            simp [this]
          · rw [if_pos (by omega), if_neg (by omega)]
        simp only [h1]
      · rw [if_neg h6, if_neg h6]

/-- C3 counterexample: a persisted file holding the valid JSON value `0`
(not an array) makes `set(json.load(f))` raise `TypeError`, which the
`except` clause does not catch, so `load_forwarded_messages` does raise to
its caller on this file state. -/
theorem load_raises_on_number_content :
    load_forwarded_messages (FileState.content (Json.num 0)) =
      Except.error "TypeError: int object is not iterable" := rfl

/-- C3 amended: for every file state that is not a decoded non-iterable
JSON value, `load_forwarded_messages` returns a set without raising: the
stored set for a valid JSON integer array, and the empty set when the file
is absent or its content fails JSON decoding. -/
theorem load_forwarded_messages_failsoft (fs : FileState)
    (h : isNumContent fs = false) :
    ∃ S : Finset Int, load_forwarded_messages fs = Except.ok S ∧
      ((fs = FileState.absent ∨ fs = FileState.invalidJson) → S = ∅) ∧
      (∀ l : List Int, fs = FileState.content (Json.arr l) →
        S = l.toFinset) := by
  cases fs with
  | absent => exact ⟨∅, rfl, fun _ => rfl, by simp⟩
  | invalidJson => exact ⟨∅, rfl, fun _ => rfl, by simp⟩
  | content j =>
    cases j with
    | arr l =>
      refine ⟨l.toFinset, rfl, by simp, ?_⟩
      intro l' hl'
      injection hl' with hj
      injection hj with he
      rw [he]
    | num n => simp [isNumContent] at h

/-- C3 witness. -/
theorem load_forwarded_messages_failsoft_witness :
    isNumContent FileState.absent = false ∧
      ∃ S : Finset Int,
        load_forwarded_messages FileState.absent = Except.ok S ∧
        ((FileState.absent = FileState.absent ∨
            FileState.absent = FileState.invalidJson) → S = ∅) ∧
        (∀ l : List Int,
          FileState.absent = FileState.content (Json.arr l) →
            S = l.toFinset) :=
  ⟨by decide, load_forwarded_messages_failsoft FileState.absent (by decide)⟩

/-- Unfolding lemma: the iteration on an empty message list is done. -/
theorem get_chat_nil (K : List String) (cutoff : Int)
    (headerOk forwardOk : Int → Bool) (s : CycleState) :
    get_chat_messages_by_time K cutoff headerOk forwardOk [] s = s := rfl

/-- Unfolding lemma: one iteration of the message loop either breaks at a
message older than the cutoff or runs the loop body and continues. -/
theorem get_chat_cons (K : List String) (cutoff : Int)
    (headerOk forwardOk : Int → Bool) (m : Message) (rest : List Message)
    (s : CycleState) :
    get_chat_messages_by_time K cutoff headerOk forwardOk (m :: rest) s =
      if m.date < cutoff then s
      else
        get_chat_messages_by_time K cutoff headerOk forwardOk rest
          (step K headerOk forwardOk m s) := rfl

/-- C1: a text message in range whose keyword match is non-empty and whose
id is already in the store at the moment it is processed (loaded at cycle
start or added earlier in the cycle — `s` is any intermediate state) only
increments the skipped counter: the continuation state carries the same
event log (no header sent, nothing forwarded) and the same store and file. -/
theorem duplicate_never_reforwarded (K : List String) (cutoff : Int)
    (headerOk forwardOk : Int → Bool) (m : Message) (rest : List Message)
    (s : CycleState)
    (hdate : ¬ m.date < cutoff)
    (htext : truthyText m.text = true)
    (hmatch : matching_keywords K (m.text.getD "") ≠ [])
    (hdup : m.id ∈ s.store) :
    get_chat_messages_by_time K cutoff headerOk forwardOk (m :: rest) s =
      get_chat_messages_by_time K cutoff headerOk forwardOk rest
        { s with messages := s.messages ++ [m.id],
                 skipped := s.skipped + 1 } := by
  rw [get_chat_cons, if_neg hdate]
  congr 1
  unfold step
  rw [if_pos (by rw [htext]), if_neg hmatch, if_pos hdup]

/-- C1 witness. -/
theorem duplicate_never_reforwarded_witness :
    ¬ (5 : Int) < 3 ∧
    truthyText (some "abc") = true ∧
    matching_keywords ["a"] ((some "abc").getD "") ≠ [] ∧
    (1 : Int) ∈ (initCycleState {1} FileState.absent).store ∧
    get_chat_messages_by_time ["a"] 3 (fun _ => true) (fun _ => true)
        [{ id := 1, date := 5, text := some "abc" }]
        (initCycleState {1} FileState.absent) =
      get_chat_messages_by_time ["a"] 3 (fun _ => true) (fun _ => true) []
        { initCycleState {1} FileState.absent with
            messages := (initCycleState {1} FileState.absent).messages ++ [1],
            skipped := (initCycleState {1} FileState.absent).skipped + 1 } :=
  ⟨by decide, by decide, by decide, by decide,
    duplicate_never_reforwarded ["a"] 3 (fun _ => true) (fun _ => true)
      { id := 1, date := 5, text := some "abc" } []
      (initCycleState {1} FileState.absent)
      (by decide) (by decide) (by decide) (by decide)⟩

/-- C6: a message dated exactly at the cutoff is processed as in range, and
the iteration stops at the first message strictly older than the cutoff:
the result is `step` applied to the boundary message alone, independent of
everything after the stopping message. -/
theorem cutoff_boundary (K : List String) (cutoff : Int)
    (headerOk forwardOk : Int → Bool) (m m' : Message) (rest : List Message)
    (s : CycleState) (hEq : m.date = cutoff) (hOld : m'.date < cutoff) :
    get_chat_messages_by_time K cutoff headerOk forwardOk
        (m :: m' :: rest) s =
      step K headerOk forwardOk m s := by
  rw [get_chat_cons, if_neg (by rw [hEq]; exact lt_irrefl cutoff),
    get_chat_cons, if_pos hOld]

/-- C6 witness. -/
theorem cutoff_boundary_witness :
    (5 : Int) = 5 ∧ (4 : Int) < 5 ∧
    get_chat_messages_by_time ["a"] 5 (fun _ => true) (fun _ => true)
        [{ id := 1, date := 5, text := some "xa" },
         { id := 2, date := 4, text := some "ya" },
         { id := 3, date := 9, text := some "za" }]
        (initCycleState ∅ FileState.absent) =
      step ["a"] (fun _ => true) (fun _ => true)
        { id := 1, date := 5, text := some "xa" }
        (initCycleState ∅ FileState.absent) :=
  ⟨rfl, by decide,
    cutoff_boundary ["a"] 5 (fun _ => true) (fun _ => true)
      { id := 1, date := 5, text := some "xa" }
      { id := 2, date := 4, text := some "ya" }
      [{ id := 3, date := 9, text := some "za" }]
      (initCycleState ∅ FileState.absent) rfl (by decide)⟩

/-- C8: when the header send or the forward call fails for a new matching
message, the failure is contained to that message: the in-memory store and
the persisted file are unchanged by the attempt, and the cycle continues
with the remaining messages from the post-attempt state. -/
theorem forward_failure_isolated (K : List String) (cutoff : Int)
    (headerOk forwardOk : Int → Bool) (m : Message) (rest : List Message)
    (s : CycleState)
    (hdate : ¬ m.date < cutoff)
    (htext : truthyText m.text = true)
    (hmatch : matching_keywords K (m.text.getD "") ≠ [])
    (hnew : m.id ∉ s.store)
    (hfail : headerOk m.id = false ∨ forwardOk m.id = false) :
    (step K headerOk forwardOk m s).store = s.store ∧
    (step K headerOk forwardOk m s).file = s.file ∧
    get_chat_messages_by_time K cutoff headerOk forwardOk (m :: rest) s =
      get_chat_messages_by_time K cutoff headerOk forwardOk rest
        (step K headerOk forwardOk m s) := by
  refine ⟨?_, ?_, ?_⟩ <;>
    first
    | (rw [get_chat_cons, if_neg hdate])
    | (unfold step
       rw [if_pos (by rw [htext]), if_neg hmatch, if_neg hnew]
       rcases hfail with hf | hf
       · rw [if_neg (by rw [hf]; exact Bool.false_ne_true)]
       · by_cases hh : headerOk m.id = true
         · rw [if_pos hh, if_neg (by rw [hf]; exact Bool.false_ne_true)]
         · rw [if_neg hh])

/-- C8 witness. -/
theorem forward_failure_isolated_witness :
    ¬ (5 : Int) < 3 ∧
    truthyText (some "abc") = true ∧
    matching_keywords ["a"] ((some "abc").getD "") ≠ [] ∧
    (1 : Int) ∉ (initCycleState ∅ FileState.absent).store ∧
    ((fun _ : Int => false) 1 = false ∨ (fun _ : Int => true) 1 = false) ∧
    ((step ["a"] (fun _ => false) (fun _ => true)
        { id := 1, date := 5, text := some "abc" }
        (initCycleState ∅ FileState.absent)).store =
      (initCycleState ∅ FileState.absent).store ∧
    (step ["a"] (fun _ => false) (fun _ => true)
        { id := 1, date := 5, text := some "abc" }
        (initCycleState ∅ FileState.absent)).file =
      (initCycleState ∅ FileState.absent).file ∧
    get_chat_messages_by_time ["a"] 3 (fun _ => false) (fun _ => true)
        [{ id := 1, date := 5, text := some "abc" }]
        (initCycleState ∅ FileState.absent) =
      get_chat_messages_by_time ["a"] 3 (fun _ => false) (fun _ => true) []
        (step ["a"] (fun _ => false) (fun _ => true)
          { id := 1, date := 5, text := some "abc" }
          (initCycleState ∅ FileState.absent))) :=
  ⟨by decide, by decide, by decide, by decide, Or.inl rfl,
    forward_failure_isolated ["a"] 3 (fun _ => false) (fun _ => true)
      { id := 1, date := 5, text := some "abc" } []
      (initCycleState ∅ FileState.absent)
      (by decide) (by decide) (by decide) (by decide) (Or.inl rfl)⟩

/-- C10: a message in range whose text is absent or empty is ignored
entirely — the step is the identity on the cycle state (not counted, not
matched, nothing sent), for every keyword list, including one containing
the empty keyword. -/
theorem non_text_message_ignored (K : List String) (cutoff : Int)
    (headerOk forwardOk : Int → Bool) (m : Message) (rest : List Message)
    (s : CycleState)
    (hdate : ¬ m.date < cutoff)
    (htext : truthyText m.text = false) :
    step K headerOk forwardOk m s = s ∧
    get_chat_messages_by_time K cutoff headerOk forwardOk (m :: rest) s =
      get_chat_messages_by_time K cutoff headerOk forwardOk rest s := by
  have hstep : step K headerOk forwardOk m s = s := by
    unfold step
    rw [if_neg (by rw [htext]; exact Bool.false_ne_true)]
  refine ⟨hstep, ?_⟩
  rw [get_chat_cons, if_neg hdate, hstep]

/-- C10 witness. -/
theorem non_text_message_ignored_witness :
    ¬ (5 : Int) < 3 ∧
    truthyText (some "") = false ∧
    (step [""] (fun _ => true) (fun _ => true)
        { id := 1, date := 5, text := some "" }
        (initCycleState ∅ FileState.absent) =
      initCycleState ∅ FileState.absent ∧
    get_chat_messages_by_time [""] 3 (fun _ => true) (fun _ => true)
        [{ id := 1, date := 5, text := some "" }]
        (initCycleState ∅ FileState.absent) =
      get_chat_messages_by_time [""] 3 (fun _ => true) (fun _ => true) []
        (initCycleState ∅ FileState.absent)) :=
  ⟨by decide, by decide,
    non_text_message_ignored [""] 3 (fun _ => true) (fun _ => true)
      { id := 1, date := 5, text := some "" } []
      (initCycleState ∅ FileState.absent)
      (by decide) (by decide)⟩

end Barahlo
